import Mathlib

/-!
Shallow embedding of `src/programs/deezjobs/src/instructions/create_deal.rs`
(the deal-opening state transition of the deezjobs escrow marketplace) and
proofs of the specification's claims about it.

Machine integers: `u64` values are embedded as `Nat` with explicit bounds
against `2 ^ 64` wherever overflow matters; `i64` timestamps are embedded as
`Int`.  Identities (Solana `Pubkey`s) are embedded as `Nat`.
-/

namespace Deezjobs

/-- The `u64` range bound: a `u64` operation overflows iff its mathematical
result is `≥ U64_MOD`. -/
def U64_MOD : Nat := 2 ^ 64

/-- A public-key identity (opaque; only equality is ever used). -/
abbrev Pubkey := Nat

/-- The `Gig` record (fields read by `create_deal.rs`; the full layout lives
in `states/`, outside this excerpt, with types per the spec's data model):
`owner` and optional `mint` are identities, `asking` is a `u64` price,
`min_completion_time` is an `i64` duration, `state` is a small integer enum
(`1` = open). -/
structure Gig where
  owner : Pubkey
  mint : Option Pubkey
  asking : Nat
  min_completion_time : Int
  state : Nat
deriving DecidableEq

/-- The `Config` record (fields read by `create_deal.rs`):
`client_fee_percentage` and `client_fee_min` are `u64` per the spec's
persisted layout, so the `try_into::<u64>().unwrap()` at line 88 is the
identity and never panics. -/
structure Config where
  bump : Nat
  client_fee_percentage : Nat
  client_fee_min : Nat
deriving DecidableEq

/-- The `Deal` record, as populated by lines 115–132 of `create_deal.rs`. -/
structure Deal where
  bump : Nat
  offer : Nat
  state : Nat
  gig : Pubkey
  freelancer : Pubkey
  client : Pubkey
  referrer : Option Pubkey
  time_created : Int
  deadline : Int
deriving DecidableEq

/-- The instruction parameters (`CreateDealParams`, lines 12–17). -/
structure CreateDealParams where
  referrer : Option Pubkey
  offer : Nat
  deadline : Int
deriving DecidableEq

/-- Every way the transition can fail.  `MintNoneFailure` is the panic of
`gig.mint.unwrap()` on a native-currency gig (line 53), `MintMismatch` the
constraint failure on the same line, `GigNotOpen` and `InsufficientOffer`
the `gig` constraints (lines 59–60), `DuplicateDeal` the failure of the
`init` of the `deal` account when the record already exists (lines 22–33),
`ArithmeticOverflow` the `checked_mul(..).unwrap()` panic (lines 90–94) or
the overflow of `offer + fee` (line 103), `InsufficientFunds` the SPL
transfer failure (line 113), and `DeadlineTooShort` the explicit error at
line 135. -/
inductive CreateDealError where
  | DuplicateDeal
  | MintNoneFailure
  | MintMismatch
  | GigNotOpen
  | InsufficientOffer
  | ArithmeticOverflow
  | InsufficientFunds
  | DeadlineTooShort
deriving DecidableEq

/-- The observable on-chain state the transition touches: the client's
wallet balance, the escrow sub-account's balance, and the Deal record slot
for this (client, gig) pair (`none` when no record exists). -/
structure EscrowState where
  ownerWallet : Nat
  escrow : Nat
  deal : Option Deal
deriving DecidableEq

/-- Result of running the handler body sequentially: on failure it records
the working state at the point of failure, i.e. the mutations already
performed before the failing step (before any transaction-level rollback). -/
inductive HandlerResult where
  | ok (s : EscrowState)
  | err (e : CreateDealError) (sAtFailure : EscrowState)
deriving DecidableEq

/-- Fee Policy, lines 88–101 of `create_deal.rs`: `checked_mul` of the
configured percentage with the offer (`unwrap` panics on `u64` overflow,
embedded as `none`), `checked_div` by `100_00` (never fails), then the
`client_fee_min` floor applied by the `if client_fee < config.client_fee_min`
branch. -/
def computeClientFee (percentage offer floor : Nat) : Option Nat :=
  if percentage * offer < U64_MOD then
    let raw := percentage * offer / 10000
    some (if raw < floor then floor else raw)
  else
    none

/-- Modelled from the spec: `total = offer + fee` "must not overflow; fail on
overflow".  The source computes it with plain `+` (line 103); whether that
aborts or wraps on overflow is decided by the crate's `overflow-checks`
build profile, which is not part of this excerpt, so the failing behavior
the spec states is taken. -/
def computeTotal (offer fee : Nat) : Option Nat :=
  if offer + fee < U64_MOD then some (offer + fee) else none

/-- The Anchor accounts validation of the `CreateDeal` context (lines
19–77), evaluated in field-declaration order: the `init` of the `deal`
account fails when a Deal record already exists for this (client, gig) pair
(the Record Store's create-once guarantee on the derived key, modelled from
the spec), then the `mint` constraint `mint.key() == gig.mint.unwrap().key()`
(panicking on `gig.mint = None`), then the `gig` constraints
`gig.state == 1` and `gig.asking <= params.offer @ InsufficientOffer`.
Returns the first failing check's error, or `none` when all pass. -/
def validateAccounts (dealExists : Bool) (suppliedMint : Pubkey) (gig : Gig)
    (offer : Nat) : Option CreateDealError :=
  if dealExists then
    some .DuplicateDeal
  else
    match gig.mint with
    | none => some .MintNoneFailure
    | some m =>
      if suppliedMint ≠ m then some .MintMismatch
      else if gig.state ≠ 1 then some .GigNotOpen
      else if offer < gig.asking then some .InsufficientOffer
      else none

/-- Referrer resolution, lines 124–132 of `create_deal.rs`: the freshly
initialized record's referrer starts empty; it is set only when a referrer
was supplied (`Some`) and the client's key differs from it, so a supplied
referrer equal to the client, or no referrer at all, leaves the field
empty. -/
def resolveReferrer (clientKey : Pubkey) (referrer : Option Pubkey) :
    Option Pubkey :=
  match referrer with
  | some r => if clientKey ≠ r then some r else none
  | none => none

/-- The handler body `create_deal_handler` (lines 79–138), run sequentially
over the working state: compute the fee (lines 88–101), the total (line
103), transfer `total` from the client wallet to the escrow (lines 105–113,
the Custody Transfer Primitive: all-or-nothing, failing when the wallet
cannot cover `total`), populate the Deal record (lines 115–122), resolve
the referrer (lines 124–132: recorded only when supplied and different from
the client), and finally check the deadline (lines 134–136).  `now` is the
clock value read at line 86; `bump` is the derivation salt from
`ctx.bumps`. -/
def create_deal_handler (now : Int) (gigKey clientKey : Pubkey) (gig : Gig)
    (config : Config) (bump : Nat) (params : CreateDealParams)
    (s : EscrowState) : HandlerResult :=
  match computeClientFee config.client_fee_percentage params.offer config.client_fee_min with
  | none => .err .ArithmeticOverflow s
  | some client_fee =>
    match computeTotal params.offer client_fee with
    | none => .err .ArithmeticOverflow s
    | some total =>
      if s.ownerWallet < total then
        .err .InsufficientFunds s
      else
        let s1 : EscrowState :=
          { ownerWallet := s.ownerWallet - total
            escrow := s.escrow + total
            deal := s.deal }
        let d : Deal :=
          { bump := bump
            offer := params.offer
            state := 1
            gig := gigKey
            freelancer := gig.owner
            client := clientKey
            referrer := none
            time_created := now
            deadline := params.deadline }
        let d2 : Deal := { d with referrer := resolveReferrer clientKey params.referrer }
        let s2 : EscrowState := { s1 with deal := some d2 }
        if now + gig.min_completion_time > params.deadline then
          .err .DeadlineTooShort s2
        else
          .ok s2

/-- The whole transition as observed from outside the transaction boundary:
accounts validation first, then the handler body.  Modelled from the spec's
all-or-nothing failure model: on any error the runtime discards every
account mutation, so only the error escapes; the working state at the point
of failure is dropped. -/
def runCreateDeal (now : Int) (gigKey clientKey suppliedMint : Pubkey)
    (gig : Gig) (config : Config) (bump : Nat) (params : CreateDealParams)
    (s0 : EscrowState) : Except CreateDealError EscrowState :=
  match validateAccounts s0.deal.isSome suppliedMint gig params.offer with
  | some e => .error e
  | none =>
    match create_deal_handler now gigKey clientKey gig config bump params s0 with
    | .ok s => .ok s
    | .err e _ => .error e

/-- Modelled from the spec: the state committed by the transaction — the
handler's final state on success, the initial state on any failure
(rollback, "no partial side effects may be observable outside the
transition boundary on any failure path"). -/
def committed (s0 : EscrowState) (r : Except CreateDealError EscrowState) :
    EscrowState :=
  match r with
  | .ok s => s
  | .error _ => s0

/-! ## Sample values used by the witness theorems
(the spec's worked example of §8: asking 1000, minimum completion time
86400, fee percentage 250 basis points with floor 50). -/

/-- Sample open gig with mint identity `5`, per the spec's worked example. -/
def gigA : Gig :=
  { owner := 7, mint := some 5, asking := 1000, min_completion_time := 86400, state := 1 }

/-- Sample config: 2.5% client fee with a floor of 50. -/
def configA : Config :=
  { bump := 3, client_fee_percentage := 250, client_fee_min := 50 }

/-- Sample pre-state: freshly created (empty) deal slot and escrow, funded
client wallet. -/
def s0A : EscrowState := { ownerWallet := 100000, escrow := 0, deal := none }

/-- Sample parameters: offer 1200, no referrer, deadline exactly
`now + min_completion_time` for `now = 0`. -/
def paramsA : CreateDealParams :=
  { referrer := none, offer := 1200, deadline := 86400 }

/-- Sample parameters with the client's own key (9) supplied as referrer. -/
def prmSelfRef : CreateDealParams :=
  { referrer := some 9, offer := 1200, deadline := 86400 }

/-- Sample parameters with a deadline one time unit short of the minimum
completion time. -/
def prmShortDl : CreateDealParams :=
  { referrer := none, offer := 1200, deadline := 86399 }

/-- Sample parameters with an offer below the asking price of 1000. -/
def prmLowOffer : CreateDealParams :=
  { referrer := none, offer := 999, deadline := 86400 }

/-- Sample parameters whose offer `2^32` overflows the fee product against
`configBig`. -/
def prmBigOffer : CreateDealParams :=
  { referrer := none, offer := 4294967296, deadline := 86400 }

/-- Sample config whose fee percentage `2^32` makes the fee product
overflow `u64` on an offer of `2^32`. -/
def configBig : Config :=
  { bump := 3, client_fee_percentage := 4294967296, client_fee_min := 50 }

/-- Sample deal record already occupying the (client, gig) slot. -/
def dealA : Deal :=
  { bump := 4, offer := 1200, state := 1, gig := 11, freelancer := 7,
    client := 9, referrer := none, time_created := 0, deadline := 86400 }

/-- Sample pre-state in which a Deal record already exists for the
(client, gig) pair. -/
def s0Dup : EscrowState :=
  { ownerWallet := 100000, escrow := 1250, deal := some dealA }

/-! ## Helper lemmas -/

/-- When the percentage–offer product stays in `u64` range, the fee policy
yields the max of the floored division and the configured floor. -/
lemma computeClientFee_of_lt (percentage offer floor : Nat)
    (h : percentage * offer < U64_MOD) :
    computeClientFee percentage offer floor
      = some (max (percentage * offer / 10000) floor) := by
  unfold computeClientFee
  rw [if_pos h]
  rcases Nat.lt_or_ge (percentage * offer / 10000) floor with hf | hf
  · simp only [if_pos hf, Nat.max_eq_right (Nat.le_of_lt hf)]
  · simp only [if_neg (Nat.not_lt.mpr hf), Nat.max_eq_left hf]

/-- All account constraints pass when the deal slot is empty, the supplied
mint matches the gig's mint, the gig is open and the offer meets the
asking price. -/
lemma validateAccounts_none (suppliedMint : Pubkey) (gig : Gig) (offer : Nat)
    (hm : gig.mint = some suppliedMint) (hs : gig.state = 1)
    (ho : gig.asking ≤ offer) :
    validateAccounts false suppliedMint gig offer = none := by
  unfold validateAccounts
  rw [hm]
  simp [hs, Nat.not_lt.mpr ho]

/-- The working state of the handler once the fee was computed as `fee`,
the transfer of `offer + fee` has happened and the Deal record has been
populated (the state just before the deadline check at line 134): wallet
debited and escrow credited by `offer + fee`, Deal record filled per lines
115–132. -/
def postTransferState (now : Int) (gigKey clientKey : Pubkey) (gig : Gig)
    (bump : Nat) (params : CreateDealParams) (fee : Nat) (s : EscrowState) :
    EscrowState :=
  { ownerWallet := s.ownerWallet - (params.offer + fee)
    escrow := s.escrow + (params.offer + fee)
    deal := some
      { bump := bump
        offer := params.offer
        state := 1
        gig := gigKey
        freelancer := gig.owner
        client := clientKey
        referrer := resolveReferrer clientKey params.referrer
        time_created := now
        deadline := params.deadline } }

/-- When the fee computation succeeds, the total does not overflow and the
wallet covers it, the handler reaches the deadline check at line 134 with
the transfer done and the record populated, and the outcome is decided
solely by that check. -/
lemma create_deal_handler_eq (now : Int) (gigKey clientKey : Pubkey)
    (gig : Gig) (config : Config) (bump : Nat) (params : CreateDealParams)
    (s : EscrowState) (fee : Nat)
    (hfee : computeClientFee config.client_fee_percentage params.offer
      config.client_fee_min = some fee)
    (hov : params.offer + fee < U64_MOD)
    (hbal : params.offer + fee ≤ s.ownerWallet) :
    create_deal_handler now gigKey clientKey gig config bump params s =
      if now + gig.min_completion_time > params.deadline then
        .err .DeadlineTooShort
          (postTransferState now gigKey clientKey gig bump params fee s)
      else
        .ok (postTransferState now gigKey clientKey gig bump params fee s) := by
  unfold create_deal_handler computeTotal
  rw [hfee]
  simp only [if_pos hov, if_neg (Nat.not_lt.mpr hbal)]
  rfl

/-- When every account constraint passes, the transition's observable
outcome is the handler body's outcome, the partial working state on failure
being discarded. -/
lemma runCreateDeal_eq_handler (now : Int)
    (gigKey clientKey suppliedMint : Pubkey) (gig : Gig) (config : Config)
    (bump : Nat) (params : CreateDealParams) (s0 : EscrowState)
    (h : validateAccounts s0.deal.isSome suppliedMint gig params.offer = none) :
    runCreateDeal now gigKey clientKey suppliedMint gig config bump params s0 =
      match create_deal_handler now gigKey clientKey gig config bump params s0 with
      | .ok s => .ok s
      | .err e _ => .error e := by
  unfold runCreateDeal
  rw [h]

/-- Success path of the whole transition: with all constraints passing, the
fee computed, no overflow, a sufficient wallet and a long-enough deadline,
the transition commits the post-transfer state. -/
lemma runCreateDeal_success (now : Int) (gigKey clientKey suppliedMint : Pubkey)
    (gig : Gig) (config : Config) (bump : Nat) (params : CreateDealParams)
    (s0 : EscrowState) (fee : Nat)
    (hd : s0.deal = none) (hm : gig.mint = some suppliedMint)
    (hs : gig.state = 1) (ho : gig.asking ≤ params.offer)
    (hfee : computeClientFee config.client_fee_percentage params.offer
      config.client_fee_min = some fee)
    (hov : params.offer + fee < U64_MOD)
    (hbal : params.offer + fee ≤ s0.ownerWallet)
    (hdl : now + gig.min_completion_time ≤ params.deadline) :
    runCreateDeal now gigKey clientKey suppliedMint gig config bump params s0 =
      .ok (postTransferState now gigKey clientKey gig bump params fee s0) := by
  have hval : validateAccounts s0.deal.isSome suppliedMint gig params.offer = none := by
    rw [hd]
    exact validateAccounts_none suppliedMint gig params.offer hm hs ho
  rw [runCreateDeal_eq_handler now gigKey clientKey suppliedMint gig config bump params s0 hval]
  rw [create_deal_handler_eq now gigKey clientKey gig config bump params s0 fee hfee hov hbal]
  rw [if_neg (not_lt.mpr hdl)]

/-! ## Claim theorems -/

/-- C3: for every offer, percentage and floor such that `percentage * offer`
does not overflow `u64`, the fee charged by the transition equals
`max(floor_div(percentage * offer, 10000), floor)` — integer floor division
by exactly 10,000, then the minimum-fee floor applied. -/
theorem client_fee_formula (percentage offer floor : Nat)
    (h : percentage * offer < U64_MOD) :
    computeClientFee percentage offer floor
      = some (max (percentage * offer / 10000) floor) :=
  computeClientFee_of_lt percentage offer floor h

/-- Witness for C3, at the spec's worked example: percentage 250, offer
1200, floor 50 give fee `max(30, 50) = 50`. -/
theorem client_fee_formula_witness :
    computeClientFee 250 1200 50 = some (max (250 * 1200 / 10000) 50) ∧
    computeClientFee 250 1200 50 = some 50 :=
  ⟨client_fee_formula 250 1200 50 (by decide), by decide⟩

/-- C10: the fee computation is monotonically nondecreasing in the offer:
for a fixed percentage and floor, and offers `offer1 ≤ offer2` neither of
whose products with the percentage overflows `u64`, the fee for `offer1` is
at most the fee for `offer2`. -/
theorem client_fee_monotone (percentage floor offer1 offer2 fee1 fee2 : Nat)
    (h12 : offer1 ≤ offer2)
    (h1 : percentage * offer1 < U64_MOD) (h2 : percentage * offer2 < U64_MOD)
    (e1 : computeClientFee percentage offer1 floor = some fee1)
    (e2 : computeClientFee percentage offer2 floor = some fee2) :
    fee1 ≤ fee2 := by
  rw [computeClientFee_of_lt percentage offer1 floor h1, Option.some_inj] at e1
  rw [computeClientFee_of_lt percentage offer2 floor h2, Option.some_inj] at e2
  subst e1
  subst e2
  exact max_le_max (Nat.div_le_div_right (Nat.mul_le_mul_left percentage h12))
    le_rfl

/-- Witness for C10: at percentage 250 and floor 50, offer 1200 is charged
50 and offer 10000 is charged 250, and 50 ≤ 250. -/
theorem client_fee_monotone_witness :
    computeClientFee 250 1200 50 = some 50 ∧
    computeClientFee 250 10000 50 = some 250 ∧ (50 : Nat) ≤ 250 :=
  ⟨by decide, by decide,
    client_fee_monotone 250 50 1200 10000 50 250 (by decide) (by decide)
      (by decide) (by decide) (by decide)⟩

/-- C4: on every successful deal opening (all constraints pass, fee
computed, no overflow, wallet covers the total, deadline long enough), the
escrow sub-account — freshly created, hence starting at balance 0 — holds
exactly `offer + fee` immediately after the transition, and the client's
wallet is reduced by exactly `offer + fee`. -/
theorem escrow_funded_exactly (now : Int)
    (gigKey clientKey suppliedMint : Pubkey) (gig : Gig) (config : Config)
    (bump : Nat) (params : CreateDealParams) (s0 : EscrowState) (fee : Nat)
    (hd : s0.deal = none) (hm : gig.mint = some suppliedMint)
    (hs : gig.state = 1) (ho : gig.asking ≤ params.offer)
    (hfee : computeClientFee config.client_fee_percentage params.offer
      config.client_fee_min = some fee)
    (hov : params.offer + fee < U64_MOD)
    (hbal : params.offer + fee ≤ s0.ownerWallet)
    (hesc : s0.escrow = 0)
    (hdl : now + gig.min_completion_time ≤ params.deadline) :
    runCreateDeal now gigKey clientKey suppliedMint gig config bump params s0 =
      .ok (committed s0
        (runCreateDeal now gigKey clientKey suppliedMint gig config bump params s0)) ∧
    (committed s0
      (runCreateDeal now gigKey clientKey suppliedMint gig config bump params s0)).escrow =
      params.offer + fee ∧
    s0.ownerWallet =
      (committed s0
        (runCreateDeal now gigKey clientKey suppliedMint gig config bump params s0)).ownerWallet +
      (params.offer + fee) := by
  have hrun := runCreateDeal_success now gigKey clientKey suppliedMint gig
    config bump params s0 fee hd hm hs ho hfee hov hbal hdl
  rw [hrun]
  refine ⟨rfl, ?_, ?_⟩
  · show s0.escrow + (params.offer + fee) = params.offer + fee
    rw [hesc, Nat.zero_add]
  · show s0.ownerWallet = s0.ownerWallet - (params.offer + fee) + (params.offer + fee)
    exact (Nat.sub_add_cancel hbal).symm

/-- Witness for C4: the spec's worked example — offer 1200 at 2.5% with
floor 50 escrows exactly 1250, drawn from the client wallet. -/
theorem escrow_funded_exactly_witness :
    runCreateDeal 0 11 9 5 gigA configA 4 paramsA s0A =
      .ok (committed s0A (runCreateDeal 0 11 9 5 gigA configA 4 paramsA s0A)) ∧
    (committed s0A (runCreateDeal 0 11 9 5 gigA configA 4 paramsA s0A)).escrow = 1250 ∧
    s0A.ownerWallet =
      (committed s0A (runCreateDeal 0 11 9 5 gigA configA 4 paramsA s0A)).ownerWallet + 1250 :=
  escrow_funded_exactly 0 11 9 5 gigA configA 4 paramsA s0A 50 rfl rfl rfl
    (by decide) (by decide) (by decide) (by decide) rfl (by decide)

/-- C7: on every successful deal opening, the persisted Deal record carries
exactly the input offer, state 1, the Gig's key, the gig owner as
freelancer, the client's key, the clock value read at the start as
`time_created`, and the input deadline. -/
theorem deal_record_population (now : Int)
    (gigKey clientKey suppliedMint : Pubkey) (gig : Gig) (config : Config)
    (bump : Nat) (params : CreateDealParams) (s0 : EscrowState) (fee : Nat)
    (hd : s0.deal = none) (hm : gig.mint = some suppliedMint)
    (hs : gig.state = 1) (ho : gig.asking ≤ params.offer)
    (hfee : computeClientFee config.client_fee_percentage params.offer
      config.client_fee_min = some fee)
    (hov : params.offer + fee < U64_MOD)
    (hbal : params.offer + fee ≤ s0.ownerWallet)
    (hdl : now + gig.min_completion_time ≤ params.deadline) :
    runCreateDeal now gigKey clientKey suppliedMint gig config bump params s0 =
      .ok (committed s0
        (runCreateDeal now gigKey clientKey suppliedMint gig config bump params s0)) ∧
    (committed s0
      (runCreateDeal now gigKey clientKey suppliedMint gig config bump params s0)).deal.map
        Deal.offer = some params.offer ∧
    (committed s0
      (runCreateDeal now gigKey clientKey suppliedMint gig config bump params s0)).deal.map
        Deal.state = some 1 ∧
    (committed s0
      (runCreateDeal now gigKey clientKey suppliedMint gig config bump params s0)).deal.map
        Deal.gig = some gigKey ∧
    (committed s0
      (runCreateDeal now gigKey clientKey suppliedMint gig config bump params s0)).deal.map
        Deal.freelancer = some gig.owner ∧
    (committed s0
      (runCreateDeal now gigKey clientKey suppliedMint gig config bump params s0)).deal.map
        Deal.client = some clientKey ∧
    (committed s0
      (runCreateDeal now gigKey clientKey suppliedMint gig config bump params s0)).deal.map
        Deal.time_created = some now ∧
    (committed s0
      (runCreateDeal now gigKey clientKey suppliedMint gig config bump params s0)).deal.map
        Deal.deadline = some params.deadline := by
  have hrun := runCreateDeal_success now gigKey clientKey suppliedMint gig
    config bump params s0 fee hd hm hs ho hfee hov hbal hdl
  rw [hrun]
  exact ⟨rfl, rfl, rfl, rfl, rfl, rfl, rfl, rfl⟩

/-- Witness for C7: the worked example's Deal record fields. -/
theorem deal_record_population_witness :
    runCreateDeal 0 11 9 5 gigA configA 4 paramsA s0A =
      .ok (committed s0A (runCreateDeal 0 11 9 5 gigA configA 4 paramsA s0A)) ∧
    (committed s0A (runCreateDeal 0 11 9 5 gigA configA 4 paramsA s0A)).deal.map
      Deal.offer = some 1200 ∧
    (committed s0A (runCreateDeal 0 11 9 5 gigA configA 4 paramsA s0A)).deal.map
      Deal.state = some 1 ∧
    (committed s0A (runCreateDeal 0 11 9 5 gigA configA 4 paramsA s0A)).deal.map
      Deal.gig = some 11 ∧
    (committed s0A (runCreateDeal 0 11 9 5 gigA configA 4 paramsA s0A)).deal.map
      Deal.freelancer = some 7 ∧
    (committed s0A (runCreateDeal 0 11 9 5 gigA configA 4 paramsA s0A)).deal.map
      Deal.client = some 9 ∧
    (committed s0A (runCreateDeal 0 11 9 5 gigA configA 4 paramsA s0A)).deal.map
      Deal.time_created = some 0 ∧
    (committed s0A (runCreateDeal 0 11 9 5 gigA configA 4 paramsA s0A)).deal.map
      Deal.deadline = some 86400 :=
  deal_record_population 0 11 9 5 gigA configA 4 paramsA s0A 50 rfl rfl rfl
    (by decide) (by decide) (by decide) (by decide) (by decide)

/-- C6: on every successful deal opening, the persisted referrer field is
empty when no referrer was supplied, empty when the supplied referrer
equals the client, and the supplied identity unchanged when it differs
from the client. -/
theorem referrer_resolution (now : Int)
    (gigKey clientKey suppliedMint : Pubkey) (gig : Gig) (config : Config)
    (bump : Nat) (params : CreateDealParams) (s0 : EscrowState) (fee : Nat)
    (hd : s0.deal = none) (hm : gig.mint = some suppliedMint)
    (hs : gig.state = 1) (ho : gig.asking ≤ params.offer)
    (hfee : computeClientFee config.client_fee_percentage params.offer
      config.client_fee_min = some fee)
    (hov : params.offer + fee < U64_MOD)
    (hbal : params.offer + fee ≤ s0.ownerWallet)
    (hdl : now + gig.min_completion_time ≤ params.deadline) :
    runCreateDeal now gigKey clientKey suppliedMint gig config bump params s0 =
      .ok (committed s0
        (runCreateDeal now gigKey clientKey suppliedMint gig config bump params s0)) ∧
    (params.referrer = none →
      (committed s0
        (runCreateDeal now gigKey clientKey suppliedMint gig config bump params s0)).deal.bind
        Deal.referrer = none) ∧
    (params.referrer = some clientKey →
      (committed s0
        (runCreateDeal now gigKey clientKey suppliedMint gig config bump params s0)).deal.bind
        Deal.referrer = none) ∧
    (∀ rf, params.referrer = some rf → rf ≠ clientKey →
      (committed s0
        (runCreateDeal now gigKey clientKey suppliedMint gig config bump params s0)).deal.bind
        Deal.referrer = some rf) := by
  have hrun := runCreateDeal_success now gigKey clientKey suppliedMint gig
    config bump params s0 fee hd hm hs ho hfee hov hbal hdl
  rw [hrun]
  refine ⟨rfl, ?_, ?_, ?_⟩
  · intro h
    show resolveReferrer clientKey params.referrer = none
    rw [h]
    rfl
  · intro h
    show resolveReferrer clientKey params.referrer = none
    rw [h]
    simp [resolveReferrer]
  · intro rf h hne
    show resolveReferrer clientKey params.referrer = some rf
    rw [h]
    show (if clientKey ≠ rf then some rf else none) = some rf
    exact if_pos (Ne.symm hne)

/-- Witness for C6: a supplied referrer equal to the client (key 9) leaves
the persisted referrer field empty. -/
theorem referrer_resolution_witness :
    (committed s0A (runCreateDeal 0 11 9 5 gigA configA 4 prmSelfRef s0A)).deal.bind
      Deal.referrer = none :=
  (referrer_resolution 0 11 9 5 gigA configA 4 prmSelfRef s0A 50 rfl rfl rfl
    (by decide) (by decide) (by decide) (by decide) (by decide)).2.2.1 rfl

/-- C1: when the deadline is shorter than `time_created` plus the gig's
minimum completion time, the transition fails with `DeadlineTooShort`, and
although the handler body had already moved `offer + fee` into the escrow
and populated the Deal record by the time the check at line 134 runs, the
committed state is the initial one: the escrow — freshly created at
balance 0 — retains balance 0 and no Deal record persists. -/
theorem deadline_rollback_atomic (now : Int)
    (gigKey clientKey suppliedMint : Pubkey) (gig : Gig) (config : Config)
    (bump : Nat) (params : CreateDealParams) (s0 : EscrowState) (fee : Nat)
    (hd : s0.deal = none) (hm : gig.mint = some suppliedMint)
    (hs : gig.state = 1) (ho : gig.asking ≤ params.offer)
    (hfee : computeClientFee config.client_fee_percentage params.offer
      config.client_fee_min = some fee)
    (hov : params.offer + fee < U64_MOD)
    (hbal : params.offer + fee ≤ s0.ownerWallet)
    (hesc : s0.escrow = 0)
    (hdl : params.deadline < now + gig.min_completion_time) :
    runCreateDeal now gigKey clientKey suppliedMint gig config bump params s0 =
      .error .DeadlineTooShort ∧
    committed s0
      (runCreateDeal now gigKey clientKey suppliedMint gig config bump params s0) = s0 ∧
    (committed s0
      (runCreateDeal now gigKey clientKey suppliedMint gig config bump params s0)).escrow = 0 ∧
    (committed s0
      (runCreateDeal now gigKey clientKey suppliedMint gig config bump params s0)).deal = none ∧
    create_deal_handler now gigKey clientKey gig config bump params s0 =
      .err .DeadlineTooShort
        (postTransferState now gigKey clientKey gig bump params fee s0) ∧
    (postTransferState now gigKey clientKey gig bump params fee s0).escrow =
      params.offer + fee ∧
    (postTransferState now gigKey clientKey gig bump params fee s0).deal.isSome = true := by
  have hval : validateAccounts s0.deal.isSome suppliedMint gig params.offer = none := by
    rw [hd]
    exact validateAccounts_none suppliedMint gig params.offer hm hs ho
  have hh := create_deal_handler_eq now gigKey clientKey gig config bump
    params s0 fee hfee hov hbal
  rw [if_pos hdl] at hh
  have hrun : runCreateDeal now gigKey clientKey suppliedMint gig config bump params s0 =
      .error .DeadlineTooShort := by
    rw [runCreateDeal_eq_handler now gigKey clientKey suppliedMint gig config bump params s0 hval,
      hh]
  have hcom : committed s0
      (runCreateDeal now gigKey clientKey suppliedMint gig config bump params s0) = s0 := by
    rw [hrun]
    rfl
  refine ⟨hrun, hcom, ?_, ?_, hh, ?_, rfl⟩
  · rw [hcom, hesc]
  · rw [hcom, hd]
  · show s0.escrow + (params.offer + fee) = params.offer + fee
    rw [hesc, Nat.zero_add]

/-- Witness for C1: the worked example with deadline 86399, one time unit
short of the 86400 minimum: the transition fails with `DeadlineTooShort`
and commits nothing, while the handler's pre-rollback working state had
escrowed 1250 and populated the record. -/
theorem deadline_rollback_atomic_witness :
    runCreateDeal 0 11 9 5 gigA configA 4 prmShortDl s0A =
      .error .DeadlineTooShort ∧
    committed s0A (runCreateDeal 0 11 9 5 gigA configA 4 prmShortDl s0A) = s0A ∧
    (committed s0A (runCreateDeal 0 11 9 5 gigA configA 4 prmShortDl s0A)).escrow = 0 ∧
    (committed s0A (runCreateDeal 0 11 9 5 gigA configA 4 prmShortDl s0A)).deal = none ∧
    create_deal_handler 0 11 9 gigA configA 4 prmShortDl s0A =
      .err .DeadlineTooShort (postTransferState 0 11 9 gigA 4 prmShortDl 50 s0A) ∧
    (postTransferState 0 11 9 gigA 4 prmShortDl 50 s0A).escrow = 1250 ∧
    (postTransferState 0 11 9 gigA 4 prmShortDl 50 s0A).deal.isSome = true :=
  deadline_rollback_atomic 0 11 9 5 gigA configA 4 prmShortDl s0A 50 rfl rfl
    rfl (by decide) (by decide) (by decide) (by decide) rfl (by decide)

/-- C5: when the offer is below the gig's asking price (with the duplicate
and mint and gig-open checks, which the account validator runs first, all
passing), the transition fails with `InsufficientOffer` and the committed
state is the initial one: no fund transfer and no Deal record. -/
theorem insufficient_offer_rejected (now : Int)
    (gigKey clientKey suppliedMint : Pubkey) (gig : Gig) (config : Config)
    (bump : Nat) (params : CreateDealParams) (s0 : EscrowState)
    (hd : s0.deal = none) (hm : gig.mint = some suppliedMint)
    (hs : gig.state = 1) (ho : params.offer < gig.asking) :
    runCreateDeal now gigKey clientKey suppliedMint gig config bump params s0 =
      .error .InsufficientOffer ∧
    committed s0
      (runCreateDeal now gigKey clientKey suppliedMint gig config bump params s0) = s0 := by
  have hval : validateAccounts s0.deal.isSome suppliedMint gig params.offer =
      some .InsufficientOffer := by
    simp [validateAccounts, hd, hm, hs, ho]
  have hrun : runCreateDeal now gigKey clientKey suppliedMint gig config bump params s0 =
      .error .InsufficientOffer := by
    unfold runCreateDeal
    rw [hval]
  exact ⟨hrun, by rw [hrun]; rfl⟩

/-- Witness for C5: offering 999 against an asking price of 1000 is
rejected with `InsufficientOffer`, committing nothing. -/
theorem insufficient_offer_rejected_witness :
    runCreateDeal 0 11 9 5 gigA configA 4 prmLowOffer s0A =
      .error .InsufficientOffer ∧
    committed s0A (runCreateDeal 0 11 9 5 gigA configA 4 prmLowOffer s0A) = s0A :=
  insufficient_offer_rejected 0 11 9 5 gigA configA 4 prmLowOffer s0A rfl rfl
    rfl (by decide)

/-- C8: when a Deal record already exists for this (client, gig) pair, the
transition fails with the duplicate-record error regardless of every input
value, and the committed state is the initial one — in particular the
client's wallet is not charged a second time. -/
theorem duplicate_deal_rejected (now : Int)
    (gigKey clientKey suppliedMint : Pubkey) (gig : Gig) (config : Config)
    (bump : Nat) (params : CreateDealParams) (s0 : EscrowState)
    (hd : s0.deal.isSome = true) :
    runCreateDeal now gigKey clientKey suppliedMint gig config bump params s0 =
      .error .DuplicateDeal ∧
    committed s0
      (runCreateDeal now gigKey clientKey suppliedMint gig config bump params s0) = s0 ∧
    (committed s0
      (runCreateDeal now gigKey clientKey suppliedMint gig config bump params s0)).ownerWallet =
      s0.ownerWallet := by
  have hval : validateAccounts s0.deal.isSome suppliedMint gig params.offer =
      some .DuplicateDeal := by
    rw [hd]
    rfl
  have hrun : runCreateDeal now gigKey clientKey suppliedMint gig config bump params s0 =
      .error .DuplicateDeal := by
    unfold runCreateDeal
    rw [hval]
  exact ⟨hrun, by rw [hrun]; rfl, by rw [hrun]; rfl⟩

/-- Witness for C8: with a Deal record already present, a second attempt is
rejected with `DuplicateDeal` and the wallet is untouched. -/
theorem duplicate_deal_rejected_witness :
    runCreateDeal 0 11 9 5 gigA configA 4 paramsA s0Dup =
      .error .DuplicateDeal ∧
    committed s0Dup (runCreateDeal 0 11 9 5 gigA configA 4 paramsA s0Dup) = s0Dup ∧
    (committed s0Dup (runCreateDeal 0 11 9 5 gigA configA 4 paramsA s0Dup)).ownerWallet =
      s0Dup.ownerWallet :=
  duplicate_deal_rejected 0 11 9 5 gigA configA 4 paramsA s0Dup rfl

/-- C9: the transition succeeds only when the supplied settlement currency
matches the gig's configured mint: a gig with no mint configured
(native-currency gig) always fails (the `gig.mint.unwrap()` panic at line
53), and a supplied mint differing from the configured one always fails
with the mint-mismatch constraint; in both cases the committed state is
the initial one. -/
theorem mint_match_required (now : Int)
    (gigKey clientKey suppliedMint : Pubkey) (gig : Gig) (config : Config)
    (bump : Nat) (params : CreateDealParams) (s0 : EscrowState)
    (hd : s0.deal = none) :
    (gig.mint = none →
      runCreateDeal now gigKey clientKey suppliedMint gig config bump params s0 =
        .error .MintNoneFailure ∧
      committed s0
        (runCreateDeal now gigKey clientKey suppliedMint gig config bump params s0) = s0) ∧
    (∀ m, gig.mint = some m → suppliedMint ≠ m →
      runCreateDeal now gigKey clientKey suppliedMint gig config bump params s0 =
        .error .MintMismatch ∧
      committed s0
        (runCreateDeal now gigKey clientKey suppliedMint gig config bump params s0) = s0) := by
  constructor
  · intro hnone
    have hval : validateAccounts s0.deal.isSome suppliedMint gig params.offer =
        some .MintNoneFailure := by
      simp [validateAccounts, hd, hnone]
    have hrun : runCreateDeal now gigKey clientKey suppliedMint gig config bump params s0 =
        .error .MintNoneFailure := by
      unfold runCreateDeal
      rw [hval]
    exact ⟨hrun, by rw [hrun]; rfl⟩
  · intro m hm hne
    have hval : validateAccounts s0.deal.isSome suppliedMint gig params.offer =
        some .MintMismatch := by
      simp [validateAccounts, hd, hm, hne]
    have hrun : runCreateDeal now gigKey clientKey suppliedMint gig config bump params s0 =
        .error .MintMismatch := by
      unfold runCreateDeal
      rw [hval]
    exact ⟨hrun, by rw [hrun]; rfl⟩

/-- Witness for C9: supplying mint 6 against a gig configured with mint 5
is rejected with `MintMismatch`, committing nothing. -/
theorem mint_match_required_witness :
    runCreateDeal 0 11 9 6 gigA configA 4 paramsA s0A =
      .error .MintMismatch ∧
    committed s0A (runCreateDeal 0 11 9 6 gigA configA 4 paramsA s0A) = s0A :=
  (mint_match_required 0 11 9 6 gigA configA 4 paramsA s0A rfl).2 5 rfl
    (by decide)

/-- C2: when the fee product `percentage * offer` or the total
`offer + fee` leaves the `u64` range (the account constraints all
passing), the transition fails with the arithmetic-overflow error — it
never wraps or saturates — and the committed state is the initial one. -/
theorem arithmetic_overflow_halts (now : Int)
    (gigKey clientKey suppliedMint : Pubkey) (gig : Gig) (config : Config)
    (bump : Nat) (params : CreateDealParams) (s0 : EscrowState)
    (hd : s0.deal = none) (hm : gig.mint = some suppliedMint)
    (hs : gig.state = 1) (ho : gig.asking ≤ params.offer)
    (hover : U64_MOD ≤ config.client_fee_percentage * params.offer ∨
      ∃ fee, computeClientFee config.client_fee_percentage params.offer
        config.client_fee_min = some fee ∧ U64_MOD ≤ params.offer + fee) :
    runCreateDeal now gigKey clientKey suppliedMint gig config bump params s0 =
      .error .ArithmeticOverflow ∧
    committed s0
      (runCreateDeal now gigKey clientKey suppliedMint gig config bump params s0) = s0 := by
  have hval : validateAccounts s0.deal.isSome suppliedMint gig params.offer = none := by
    rw [hd]
    exact validateAccounts_none suppliedMint gig params.offer hm hs ho
  have hh : create_deal_handler now gigKey clientKey gig config bump params s0 =
      .err .ArithmeticOverflow s0 := by
    rcases hover with h1 | ⟨fee, hfee, h2⟩
    · unfold create_deal_handler computeClientFee
      rw [if_neg (Nat.not_lt.mpr h1)]
    · unfold create_deal_handler computeTotal
      rw [hfee]
      simp only [if_neg (Nat.not_lt.mpr h2)]
  have hrun : runCreateDeal now gigKey clientKey suppliedMint gig config bump params s0 =
      .error .ArithmeticOverflow := by
    rw [runCreateDeal_eq_handler now gigKey clientKey suppliedMint gig config bump params s0 hval,
      hh]
  exact ⟨hrun, by rw [hrun]; rfl⟩

/-- Witness for C2: percentage `2^32` times offer `2^32` is exactly `2^64`,
out of `u64` range, so the transition fails with the arithmetic-overflow
error and commits nothing. -/
theorem arithmetic_overflow_halts_witness :
    runCreateDeal 0 11 9 5 gigA configBig 4 prmBigOffer s0A =
      .error .ArithmeticOverflow ∧
    committed s0A (runCreateDeal 0 11 9 5 gigA configBig 4 prmBigOffer s0A) = s0A :=
  arithmetic_overflow_halts 0 11 9 5 gigA configBig 4 prmBigOffer s0A rfl rfl
    rfl (by decide) (Or.inl (by decide))

end Deezjobs
